import Mathlib

/-!
Shallow embedding of `Transformer/Framework/FiltersBase.py`
(class `CoverageFilterBase`, together with the relevant pieces of its base
class `FilterBase`).

Modelling choices:
  * Python `None`-able instance fields become `Option` fields.
  * Python exceptions are represented by the `PyErr` type; an operation that
    can raise returns, alongside the state at raise time, an `Option PyErr`.
  * Python lists are heterogeneous, and line 220 of the source appends the
    list `newStructures` (not the single structure `newStructure`) to
    `filteredStructures`, so the elements stored in the filtered-structure
    buffers are modelled by `Item σ`: either a structure or a list of
    structures.
  * The external collaborators (the structure generator
    `GetUniqueAtomicSubstitutions`, the accept/reject predicate
    `TestSubstitutedStructure` of a derived class, and the atom-type lookup
    `Structure.AtomTypeToAtomTypeNumber`) live outside this file's sources
    and are parameters, bundled in `Env`.
  * Calls to `structureSet.Add` are recorded as a trace (a list of
    structure/degeneracy pairs, in call order); the result set itself is
    external and is touched only through `Add`.
-/

namespace Transformer

/-- Python runtime errors that the modelled code can raise. -/
inductive PyErr : Type where
  /-- the `Exception` raised by the `CoverageFilterBase` constructor -/
  | exception : PyErr
  /-- Python `AttributeError` -/
  | attributeError : PyErr
  /-- Python `TypeError` -/
  | typeError : PyErr
  /-- Python `IndexError` -/
  | indexError : PyErr
deriving DecidableEq, Repr

/-- An element of one of the filtered-structure buffers.  A buffer entry put
there by `SetFilteredStructures` is a single structure; an entry appended by
the reject accumulation of `FinaliseMergedStructureSet` (source line 220,
`filteredStructures.append(newStructures)`) is a whole list of structures. -/
inductive Item (σ : Type) : Type where
  | struct : σ → Item σ
  | structList : List σ → Item σ
deriving DecidableEq, Repr

/-- The external collaborators, as parameters of the embedding.
`σ` is the opaque structure type, `α` the atom-type label type, `τ` the
symmetry-tolerance type. -/
structure Env (σ α τ : Type) where
  /-- `Structure.AtomTypeToAtomTypeNumber` -/
  a2n : α → Nat
  /-- `structure.GetUniqueAtomicSubstitutions(n1, n2, tolerance)`; returns the
  child structures and their raw multiplicities.  The tolerance is passed
  through verbatim, so it may be `none` (Python `None`). -/
  gen : σ → Nat → Nat → Option τ → List σ × List Nat
  /-- `self.TestSubstitutedStructure(structure, degeneracy)` as supplied by a
  derived class (the `FilterBase` default accepts everything). -/
  test : σ → Nat → Bool

/-- The instance fields of a `CoverageFilterBase` object (including the fields
inherited from `FilterBase`).  `printProgressUpdate` is `none` when the
attribute has never been assigned: `FilterBase.__init__` does not set it, only
`Initialise` does, so reading it before `Initialise` raises `AttributeError`. -/
structure CoverageFilterBase (σ α τ : Type) where
  coverage : String
  substitutions : Option (List (α × α))
  tolerance : Option τ
  printProgressUpdate : Option Bool
  useMP : Bool
  mpNumProcesses : Option Nat
  substitutionIndex : Option Nat
  lastFilteredStructures : Option (List (Item σ))
  lastFilteredDegeneracies : Option (List Nat)
  currentFilteredStructures : Option (List (Item σ))
  currentFilteredDegeneracies : Option (List Nat)
deriving DecidableEq, Repr

/-- `CoverageFilterBase.CoverageLevels` (source line 253). -/
def CoverageLevels : List String := ["low", "medium", "full"]

/-- The field state produced by `CoverageFilterBase.__init__` (after the
`FilterBase.__init__` call) when validation passes. -/
def freshState (σ α τ : Type) (coverage : String) : CoverageFilterBase σ α τ :=
  { coverage := coverage
    substitutions := none
    tolerance := none
    printProgressUpdate := none
    useMP := false
    mpNumProcesses := none
    substitutionIndex := none
    lastFilteredStructures := none
    lastFilteredDegeneracies := none
    currentFilteredStructures := none
    currentFilteredDegeneracies := none }

/-- `CoverageFilterBase.__init__(coverage)` (source lines 105-124): validate
the coverage level against `CoverageLevels`, raising an `Exception` for any
other value, and initialise the buffer fields to `None`. -/
def mkCoverageFilterBase (σ α τ : Type) (coverage : String) :
    Except PyErr (CoverageFilterBase σ α τ) :=
  if coverage ∈ CoverageLevels then .ok (freshState σ α τ coverage)
  else .error .exception

/-- `FilterBase.Initialise` (source lines 63-73): store the substitution
sequence, tolerance, progress flag and MP configuration. -/
def Initialise {σ α τ : Type} (substitutions : List (α × α)) (tolerance : τ)
    (printProgressUpdate : Bool) (useMP : Bool) (mpNumProcesses : Option Nat)
    (s : CoverageFilterBase σ α τ) : CoverageFilterBase σ α τ :=
  { s with
    substitutions := some substitutions
    tolerance := some tolerance
    printProgressUpdate := some printProgressUpdate
    useMP := useMP
    mpNumProcesses := mpNumProcesses }

/-- `CoverageFilterBase.OnStartSubstitution(index)` (source lines 135-144):
when the coverage level is not `'low'`, shift `current` into `last`, clear
`current`, and record the substitution index.  The whole body is guarded, so
for `'low'` coverage nothing at all happens (the index is not recorded). -/
def OnStartSubstitution {σ α τ : Type} (index : Nat)
    (s : CoverageFilterBase σ α τ) : CoverageFilterBase σ α τ :=
  if s.coverage ≠ "low" then
    { s with
      lastFilteredStructures := s.currentFilteredStructures
      lastFilteredDegeneracies := s.currentFilteredDegeneracies
      currentFilteredStructures := none
      currentFilteredDegeneracies := none
      substitutionIndex := some index }
  else s

/-- `CoverageFilterBase.SetFilteredStructures(structures, degeneracies)`
(source lines 146-151): when the coverage level is not `'low'`, overwrite the
`current` buffer with the given lists.  The driver passes plain structure
lists, stored verbatim. -/
def SetFilteredStructures {σ α τ : Type} (structures : List σ)
    (degeneracies : List Nat) (s : CoverageFilterBase σ α τ) :
    CoverageFilterBase σ α τ :=
  if s.coverage ≠ "low" then
    { s with
      currentFilteredStructures := some (structures.map Item.struct)
      currentFilteredDegeneracies := some degeneracies }
  else s

/-- The outputs of the `for i in iValues` loop of
`CoverageFilterBase.FinaliseMergedStructureSet` (source lines 200-221). -/
structure LoopResult (σ : Type) where
  /-- the `structureSet.Add` calls made, in order -/
  adds : List (σ × Nat)
  /-- the local `filteredStructures` list -/
  filteredStructures : List (Item σ)
  /-- the local `filteredDegeneracies` list -/
  filteredDegeneracies : List Nat
  /-- the exception that aborted the loop, if any -/
  err : Option PyErr
deriving DecidableEq, Repr

/-- The loop of `FinaliseMergedStructureSet` (source lines 200-221).  For each
index the parent structure and degeneracy are read (`degeneracies[i]` raises
`IndexError` when the degeneracy list is shorter); the generator is invoked on
the parent (raising `AttributeError` when the buffer entry is a list rather
than a structure, as happens for entries appended by line 220 of a previous
pass); each raw child multiplicity is multiplied by the parent degeneracy;
accepted children are passed to `structureSet.Add`, rejected children append
`newStructures` (the whole child list — source line 220) and `newDegeneracy`
to the local filtered lists. -/
def finaliseLoop {σ α τ : Type} (E : Env σ α τ) (a1 a2 : Nat) (tol : Option τ) :
    List (Item σ) → List Nat → LoopResult σ
  | [], _ => ⟨[], [], [], none⟩
  | _ :: _, [] => ⟨[], [], [], some .indexError⟩
  | .structList _ :: _, _ :: _ => ⟨[], [], [], some .attributeError⟩
  | .struct st :: rest, d :: ds =>
    let gr := E.gen st a1 a2 tol
    let pairs := gr.1.zip (gr.2.map (fun m => m * d))
    let accepted := pairs.filter (fun p => E.test p.1 p.2)
    let rejected := pairs.filter (fun p => ! E.test p.1 p.2)
    let r := finaliseLoop E a1 a2 tol rest ds
    ⟨accepted ++ r.adds,
     rejected.map (fun _ => Item.structList gr.1) ++ r.filteredStructures,
     rejected.map (fun p => p.2) ++ r.filteredDegeneracies,
     r.err⟩

/-- Outcome of the read-only part of `FinaliseMergedStructureSet` (source
lines 156-234): either the pass is a no-op, or it raised an exception after
having made some `Add` calls, or it completed the loop. -/
inductive FinaliseOutcome (σ : Type) : Type where
  | noop : FinaliseOutcome σ
  | raised : List (σ × Nat) → PyErr → FinaliseOutcome σ
  | done : LoopResult σ → FinaliseOutcome σ
deriving DecidableEq, Repr

/-- The read-only part of `CoverageFilterBase.FinaliseMergedStructureSet`
(source lines 156-234): the guard on `'low'` coverage and on a missing/empty
`last` buffer (line 159), the read of `_printProgressUpdate` (line 160, the
first statement of the guarded block — `AttributeError` when `Initialise` was
never called), the substitution lookup
`self._substitutions[self._substitutionIndex]` (line 173 — `TypeError` when
either field is `None`, `IndexError` when the index is out of range), the
read of the degeneracy buffer (`TypeError` on first subscript when `None`),
and the loop. -/
def finaliseCompute {σ α τ : Type} (E : Env σ α τ)
    (s : CoverageFilterBase σ α τ) : FinaliseOutcome σ :=
  if s.coverage = "low" then .noop
  else
    match s.lastFilteredStructures with
    | none => .noop
    | some structures =>
      if structures.length = 0 then .noop
      else
        match s.printProgressUpdate with
        | none => .raised [] .attributeError
        | some _ =>
          match s.substitutions with
          | none => .raised [] .typeError
          | some subs =>
            match s.substitutionIndex with
            | none => .raised [] .typeError
            | some idx =>
              match subs.get? idx with
              | none => .raised [] .indexError
              | some sub =>
                match s.lastFilteredDegeneracies with
                | none => .raised [] .typeError
                | some degens =>
                  let r := finaliseLoop E (E.a2n sub.1) (E.a2n sub.2)
                    s.tolerance structures degens
                  match r.err with
                  | some e => .raised r.adds e
                  | none => .done r

/-- `CoverageFilterBase.FinaliseMergedStructureSet(structureSet)` (source
lines 153-247).  Returns the post-call field state, the trace of
`structureSet.Add` calls, and the exception raised, if any.  After the loop,
under `'full'` coverage with a non-empty reject list, lines 238-239 evaluate
`self._currentFilteredStructures + filteredStructures` and the analogous sum
for the degeneracies: when the current structure buffer is `None` the `+`
raises `TypeError` before any field is written; when only the current
degeneracy buffer is `None`, line 238 has already updated the structure buffer
when line 239 raises. -/
def FinaliseMergedStructureSet {σ α τ : Type} (E : Env σ α τ)
    (s : CoverageFilterBase σ α τ) :
    CoverageFilterBase σ α τ × List (σ × Nat) × Option PyErr :=
  match finaliseCompute E s with
  | .noop => (s, [], none)
  | .raised adds e => (s, adds, some e)
  | .done r =>
    if s.coverage = "full" ∧ 0 < r.filteredStructures.length then
      match s.currentFilteredStructures with
      | none => (s, r.adds, some .typeError)
      | some cs =>
        match s.currentFilteredDegeneracies with
        | none =>
          ({ s with currentFilteredStructures := some (cs ++ r.filteredStructures) },
           r.adds, some .typeError)
        | some cd =>
          ({ s with
             currentFilteredStructures := some (cs ++ r.filteredStructures)
             currentFilteredDegeneracies := some (cd ++ r.filteredDegeneracies) },
           r.adds, none)
    else (s, r.adds, none)

/-- One call that a driver can make on the orchestrator between construction
and destruction, excluding `Initialise` (used to quantify over call
sequences). -/
inductive DriverCall (σ : Type) : Type where
  | onStart : Nat → DriverCall σ
  | setFiltered : List σ → List Nat → DriverCall σ
  | finalise : DriverCall σ
deriving DecidableEq, Repr

/-- Execute one driver call, returning the new state, the `Add` trace of the
call, and any exception. -/
def runCall {σ α τ : Type} (E : Env σ α τ) (c : DriverCall σ)
    (s : CoverageFilterBase σ α τ) :
    CoverageFilterBase σ α τ × List (σ × Nat) × Option PyErr :=
  match c with
  | .onStart i => (OnStartSubstitution i s, [], none)
  | .setFiltered st dg => (SetFilteredStructures st dg s, [], none)
  | .finalise => FinaliseMergedStructureSet E s

/-- Execute a sequence of driver calls, accumulating the `Add` trace and
stopping at the first exception (which would propagate to the driver). -/
def runCalls {σ α τ : Type} (E : Env σ α τ) :
    List (DriverCall σ) → CoverageFilterBase σ α τ →
    CoverageFilterBase σ α τ × List (σ × Nat) × Option PyErr
  | [], s => (s, [], none)
  | c :: cs, s =>
    let r := runCall E c s
    match r.2.2 with
    | some e => (r.1, r.2.1, some e)
    | none =>
      let r2 := runCalls E cs r.1
      (r2.1, r.2.1 ++ r2.2.1, r2.2.2)

/-- The child/degeneracy pairs generated from one parent: the generator's
children zipped with their raw multiplicities multiplied by the parent
degeneracy (source lines 205-215). -/
def childPairs {σ α τ : Type} (E : Env σ α τ) (a1 a2 : Nat) (tol : Option τ)
    (st : σ) (d : Nat) : List (σ × Nat) :=
  (E.gen st a1 a2 tol).1.zip ((E.gen st a1 a2 tol).2.map (fun m => m * d))

/-- Concrete environment over natural-number structures for the scenario
instances: atom-type lookup is the identity, structure `st` generates the
single child `2 * st` with raw multiplicity `2`, and the policy rejects every
child. -/
def rejectAllEnv : Env Nat Nat Unit :=
  { a2n := id
    gen := fun st _ _ _ => ([2 * st], [2])
    test := fun _ _ => false }

/-- Like `rejectAllEnv`, but the policy accepts every child. -/
def acceptAllEnv : Env Nat Nat Unit :=
  { a2n := id
    gen := fun st _ _ _ => ([2 * st], [2])
    test := fun _ _ => true }

/-- The spec's end-to-end scenario state just before the step-1 finalize: a
`'full'`-coverage filter (with `sA = 1`), initialised, after
`SetFilteredStructures([sA], [1])` during step 0 and `OnStartSubstitution(1)`
marking the step-1 boundary. -/
def fullScenarioState : CoverageFilterBase Nat Nat Unit :=
  OnStartSubstitution 1
    (SetFilteredStructures [1] [1]
      (OnStartSubstitution 0
        (Initialise [(10, 11), (12, 13)] () false false none
          (freshState Nat Nat Unit "full"))))

/-- `fullScenarioState` after an additional `SetFilteredStructures([], [])`
during step 1, so that the current buffer is an empty list rather than
`None` when the step-1 finalize appends to it. -/
def fullScenarioStateB : CoverageFilterBase Nat Nat Unit :=
  SetFilteredStructures [] [] fullScenarioState

/- ------------------------------------------------------------------ -/
/- Helper lemmas                                                      -/
/- ------------------------------------------------------------------ -/

/-- `FinaliseMergedStructureSet` either returns the state unchanged, or (only
under `'full'` coverage) extends one or both of the current buffers by a
suffix, leaving every other field unchanged. -/
theorem finalise_state_cases {σ α τ : Type} (E : Env σ α τ)
    (s : CoverageFilterBase σ α τ) :
    (FinaliseMergedStructureSet E s).1 = s ∨
    (s.coverage = "full" ∧ ∃ cs tS,
      s.currentFilteredStructures = some cs ∧
      ((FinaliseMergedStructureSet E s).1 =
         { s with currentFilteredStructures := some (cs ++ tS) } ∨
       ∃ cd tD, s.currentFilteredDegeneracies = some cd ∧
         (FinaliseMergedStructureSet E s).1 =
           { s with
             currentFilteredStructures := some (cs ++ tS)
             currentFilteredDegeneracies := some (cd ++ tD) })) := by
  unfold FinaliseMergedStructureSet
  cases h : finaliseCompute E s with
  | noop => left; rfl
  | raised adds e => left; rfl
  | done r =>
    dsimp only
    by_cases hc : s.coverage = "full" ∧ 0 < r.filteredStructures.length
    · rw [if_pos hc]
      cases hcs : s.currentFilteredStructures with
      | none => left; rfl
      | some cs =>
        cases hcd : s.currentFilteredDegeneracies with
        | none =>
          right
          exact ⟨hc.1, cs, r.filteredStructures, rfl, Or.inl rfl⟩
        | some cd =>
          right
          exact ⟨hc.1, cs, r.filteredStructures, rfl,
            Or.inr ⟨cd, r.filteredDegeneracies, rfl, rfl⟩⟩
    · rw [if_neg hc]; left; rfl

/-- `FinaliseMergedStructureSet` can change only the two current-buffer
fields; every other field of the state is preserved. -/
theorem finalise_field_frame {σ α τ : Type} (E : Env σ α τ)
    (s : CoverageFilterBase σ α τ) :
    (FinaliseMergedStructureSet E s).1.coverage = s.coverage ∧
    (FinaliseMergedStructureSet E s).1.substitutions = s.substitutions ∧
    (FinaliseMergedStructureSet E s).1.tolerance = s.tolerance ∧
    (FinaliseMergedStructureSet E s).1.printProgressUpdate =
      s.printProgressUpdate ∧
    (FinaliseMergedStructureSet E s).1.useMP = s.useMP ∧
    (FinaliseMergedStructureSet E s).1.mpNumProcesses = s.mpNumProcesses ∧
    (FinaliseMergedStructureSet E s).1.substitutionIndex =
      s.substitutionIndex ∧
    (FinaliseMergedStructureSet E s).1.lastFilteredStructures =
      s.lastFilteredStructures ∧
    (FinaliseMergedStructureSet E s).1.lastFilteredDegeneracies =
      s.lastFilteredDegeneracies := by
  rcases finalise_state_cases E s with h | ⟨_, cs, tS, _, h | ⟨cd, tD, _, h⟩⟩ <;>
    rw [h] <;> exact ⟨rfl, rfl, rfl, rfl, rfl, rfl, rfl, rfl, rfl⟩

/-- Closed form of `finaliseLoop` on a buffer consisting of single structures
with at least as many degeneracies: no error, and the three output lists are
concatenations of the per-parent contributions. -/
theorem finaliseLoop_eq {σ α τ : Type} (E : Env σ α τ) (a1 a2 : Nat)
    (tol : Option τ) :
    ∀ (structs : List σ) (degens : List Nat),
      structs.length ≤ degens.length →
      finaliseLoop E a1 a2 tol (structs.map Item.struct) degens =
        ⟨(structs.zip degens).flatMap
            (fun sd => (childPairs E a1 a2 tol sd.1 sd.2).filter
              (fun p => E.test p.1 p.2)),
          (structs.zip degens).flatMap
            (fun sd => ((childPairs E a1 a2 tol sd.1 sd.2).filter
                (fun p => ! E.test p.1 p.2)).map
              (fun _ => Item.structList (E.gen sd.1 a1 a2 tol).1)),
          (structs.zip degens).flatMap
            (fun sd => ((childPairs E a1 a2 tol sd.1 sd.2).filter
                (fun p => ! E.test p.1 p.2)).map Prod.snd),
          none⟩
  | [], _, _ => by simp [finaliseLoop]
  | st :: rest, [], h => absurd h (by simp)
  | st :: rest, d :: ds, h => by
    have ih := finaliseLoop_eq E a1 a2 tol rest ds (by simpa using h)
    simp [finaliseLoop, childPairs, ih]

/-- A successful construction yields exactly the fresh field state. -/
theorem mk_ok_eq {σ α τ : Type} {coverage : String}
    {s : CoverageFilterBase σ α τ}
    (h : mkCoverageFilterBase σ α τ coverage = .ok s) :
    s = freshState σ α τ coverage := by
  unfold mkCoverageFilterBase at h
  split at h
  · injection h with h'
    exact h'.symm
  · exact Except.noConfusion h

/-- Every driver call on a `'low'`-coverage state is a complete no-op with an
empty `Add` trace and no exception. -/
theorem runCall_low {σ α τ : Type} (E : Env σ α τ) (c : DriverCall σ)
    (s : CoverageFilterBase σ α τ) (h : s.coverage = "low") :
    runCall E c s = (s, [], none) := by
  cases c with
  | onStart i => simp [runCall, OnStartSubstitution, h]
  | setFiltered st dg => simp [runCall, SetFilteredStructures, h]
  | finalise => simp [runCall, FinaliseMergedStructureSet, finaliseCompute, h]

/-- Every driver-call sequence on a `'low'`-coverage state is a complete
no-op with an empty `Add` trace and no exception. -/
theorem runCalls_low {σ α τ : Type} (E : Env σ α τ)
    (calls : List (DriverCall σ)) (s : CoverageFilterBase σ α τ)
    (h : s.coverage = "low") :
    runCalls E calls s = (s, [], none) := by
  induction calls with
  | nil => rfl
  | cons c cs ih => simp [runCalls, runCall_low E c s h, ih]

/-- One driver call never changes the progress-reporting field or the
coverage field. -/
theorem runCall_preserves {σ α τ : Type} (E : Env σ α τ) (c : DriverCall σ)
    (s : CoverageFilterBase σ α τ) :
    (runCall E c s).1.printProgressUpdate = s.printProgressUpdate ∧
    (runCall E c s).1.coverage = s.coverage := by
  cases c with
  | onStart i =>
    dsimp only [runCall]
    unfold OnStartSubstitution
    split <;> exact ⟨rfl, rfl⟩
  | setFiltered st dg =>
    dsimp only [runCall]
    unfold SetFilteredStructures
    split <;> exact ⟨rfl, rfl⟩
  | finalise =>
    exact ⟨(finalise_field_frame E s).2.2.2.1, (finalise_field_frame E s).1⟩

/-- A driver-call sequence never changes the progress-reporting field or the
coverage field. -/
theorem runCalls_preserves {σ α τ : Type} (E : Env σ α τ)
    (calls : List (DriverCall σ)) (s : CoverageFilterBase σ α τ) :
    (runCalls E calls s).1.printProgressUpdate = s.printProgressUpdate ∧
    (runCalls E calls s).1.coverage = s.coverage := by
  induction calls generalizing s with
  | nil => exact ⟨rfl, rfl⟩
  | cons c cs ih =>
    have h1 := runCall_preserves E c s
    simp only [runCalls]
    cases he : (runCall E c s).2.2 with
    | some e => simpa [he] using h1
    | none =>
      have h2 := ih (runCall E c s).1
      simp only [he]
      exact ⟨h2.1.trans h1.1, h2.2.trans h1.2⟩

/-- When the pass actually runs (coverage not `'low'`, non-empty last buffer
of single structures with enough degeneracies, progress flag assigned,
substitution resolvable), `finaliseCompute` completes the loop. -/
theorem finalise_run {σ α τ : Type} (E : Env σ α τ)
    (s : CoverageFilterBase σ α τ) (hcovlow : s.coverage ≠ "low")
    (structs : List σ)
    (hlast : s.lastFilteredStructures = some (structs.map Item.struct))
    (degens : List Nat)
    (hlastd : s.lastFilteredDegeneracies = some degens)
    (hlen : structs.length ≤ degens.length)
    (b : Bool) (hppu : s.printProgressUpdate = some b)
    (subs : List (α × α)) (hsubs : s.substitutions = some subs)
    (j : Nat) (hidx : s.substitutionIndex = some j)
    (p : α × α) (hj : subs.get? j = some p)
    (hne : structs ≠ []) :
    finaliseCompute E s =
      .done (finaliseLoop E (E.a2n p.1) (E.a2n p.2) s.tolerance
        (structs.map Item.struct) degens) := by
  have herr : (finaliseLoop E (E.a2n p.1) (E.a2n p.2) s.tolerance
      (structs.map Item.struct) degens).err = none := by
    rw [finaliseLoop_eq E (E.a2n p.1) (E.a2n p.2) s.tolerance structs degens hlen]
  unfold finaliseCompute
  rw [if_neg hcovlow, hlast]
  dsimp only
  rw [if_neg (by simp [hne]), hppu]
  dsimp only
  rw [hsubs]
  dsimp only
  rw [hidx]
  dsimp only
  rw [hj]
  dsimp only
  rw [hlastd]
  dsimp only
  rw [herr]

/- ------------------------------------------------------------------ -/
/- Claim theorems                                                     -/
/- ------------------------------------------------------------------ -/

/-- C1: the spec's end-to-end full-coverage scenario does not behave as
claimed.  For the `'full'` filter with `SetFilteredStructures([sA],[1])` at
step 0 and `OnStartSubstitution(1)`, a finalize whose generator yields one
child `sB = 2` with raw multiplicity 2 and whose policy rejects it does not
leave `current == ([sB],[2])`: the current buffer is `None` at that point (it
was reset at the step boundary and never re-set), so the append of line 238
raises `TypeError`, leaving the state unchanged; no `Add` call is made (that
part of the claim — the result set is unchanged — does hold). -/
theorem c1_full_scenario_raises_typeError :
    mkCoverageFilterBase Nat Nat Unit "full" =
      .ok (freshState Nat Nat Unit "full") ∧
    fullScenarioState.currentFilteredStructures = none ∧
    fullScenarioState.lastFilteredStructures = some [Item.struct 1] ∧
    fullScenarioState.lastFilteredDegeneracies = some [1] ∧
    FinaliseMergedStructureSet rejectAllEnv fullScenarioState =
      (fullScenarioState, [], some PyErr.typeError) :=
  ⟨rfl, rfl, rfl, rfl, rfl⟩

/-- C2: the reject accumulation of `FinaliseMergedStructureSet` does not
append one structure per rejected child.  Running the step-1 finalize of the
full-coverage scenario with an empty current buffer, the rejected child
`sB = 2` with degeneracy 2 leaves the current buffers with matching lengths,
but position 0 of the structure buffer holds the parent's whole child list
`[2]` (source line 220 appends `newStructures`, not `newStructure`), not the
structure `2` that the degeneracy at position 0 belongs to. -/
theorem c2_reject_appends_child_list :
    (FinaliseMergedStructureSet rejectAllEnv fullScenarioStateB).1.currentFilteredStructures =
      some [Item.structList [2]] ∧
    (FinaliseMergedStructureSet rejectAllEnv fullScenarioStateB).1.currentFilteredDegeneracies =
      some [2] ∧
    (FinaliseMergedStructureSet rejectAllEnv fullScenarioStateB).2.2 = none ∧
    Item.structList [2] ≠ Item.struct 2 :=
  ⟨rfl, rfl, rfl, by decide⟩

/-- C3: for every state with coverage other than `'low'`,
`OnStartSubstitution(index)` moves the current buffer into the last buffer,
clears the current buffer (to the unset pair `(None, None)`, which the
finalize pass treats as empty), and records the index; and none of
`SetFilteredStructures`, `FinaliseMergedStructureSet` or `Initialise` ever
writes the last buffer. -/
theorem c3_step_boundary_shift {σ α τ : Type} (s : CoverageFilterBase σ α τ)
    (h : s.coverage ≠ "low") (index : Nat) :
    OnStartSubstitution index s =
      { s with
        lastFilteredStructures := s.currentFilteredStructures
        lastFilteredDegeneracies := s.currentFilteredDegeneracies
        currentFilteredStructures := none
        currentFilteredDegeneracies := none
        substitutionIndex := some index } ∧
    (∀ (structures : List σ) (degeneracies : List Nat),
      (SetFilteredStructures structures degeneracies s).lastFilteredStructures =
        s.lastFilteredStructures ∧
      (SetFilteredStructures structures degeneracies s).lastFilteredDegeneracies =
        s.lastFilteredDegeneracies) ∧
    (∀ E : Env σ α τ,
      (FinaliseMergedStructureSet E s).1.lastFilteredStructures =
        s.lastFilteredStructures ∧
      (FinaliseMergedStructureSet E s).1.lastFilteredDegeneracies =
        s.lastFilteredDegeneracies) ∧
    (∀ (substitutions : List (α × α)) (tolerance : τ)
        (ppu mp : Bool) (mpn : Option Nat),
      (Initialise substitutions tolerance ppu mp mpn s).lastFilteredStructures =
        s.lastFilteredStructures ∧
      (Initialise substitutions tolerance ppu mp mpn s).lastFilteredDegeneracies =
        s.lastFilteredDegeneracies) := by
  refine ⟨?_, ?_, ?_, ?_⟩
  · unfold OnStartSubstitution
    rw [if_pos h]
  · intro structures degeneracies
    unfold SetFilteredStructures
    split <;> exact ⟨rfl, rfl⟩
  · intro E
    exact ⟨(finalise_field_frame E s).2.2.2.2.2.2.2.1,
      (finalise_field_frame E s).2.2.2.2.2.2.2.2⟩
  · intro substitutions tolerance ppu mp mpn
    exact ⟨rfl, rfl⟩

/-- Witness for C3 at a concrete `'full'`-coverage state. -/
theorem c3_step_boundary_shift_witness :
    OnStartSubstitution 4 (freshState Nat Nat Unit "full") =
      { freshState Nat Nat Unit "full" with substitutionIndex := some 4 } :=
  (c3_step_boundary_shift (freshState Nat Nat Unit "full") (by decide) 4).1

/-- C6 counterexample: for a filter constructed with coverage `'low'`,
`OnStartSubstitution(5)` does not record the index — the whole method body is
guarded by `coverage != 'low'`, so the substitution index stays `None`
rather than becoming 5. -/
theorem c6_low_onstart_counterexample :
    ((mkCoverageFilterBase Nat Nat Unit "low").map
        (fun s => (OnStartSubstitution 5 s).substitutionIndex)) =
      .ok none ∧
    (none : Option Nat) ≠ some 5 :=
  ⟨rfl, by decide⟩

/-- C6 (amended): for a `CoverageFilterBase` with coverage `'low'`,
`OnStartSubstitution(index)` is a complete no-op: it leaves every field,
including the active substitution index, unchanged. -/
theorem c6_low_onstart_noop {σ α τ : Type} (s : CoverageFilterBase σ α τ)
    (h : s.coverage = "low") (index : Nat) :
    OnStartSubstitution index s = s := by
  unfold OnStartSubstitution
  rw [if_neg (by simp [h])]

/-- Witness for the amended C6 at a concrete `'low'`-coverage state. -/
theorem c6_low_onstart_noop_witness :
    OnStartSubstitution 5 (freshState Nat Nat Unit "low") =
      freshState Nat Nat Unit "low" :=
  c6_low_onstart_noop (freshState Nat Nat Unit "low") rfl 5

/-- C5: a `CoverageFilterBase` constructed with coverage `'low'` is fully
inert.  Its carry-over buffers start unset and every finite sequence of
`OnStartSubstitution` / `SetFilteredStructures` / `FinaliseMergedStructureSet`
calls leaves the whole state unchanged, makes no `structureSet.Add` call, and
raises no exception. -/
theorem c5_low_coverage_inert {σ α τ : Type} (E : Env σ α τ)
    (s0 : CoverageFilterBase σ α τ)
    (h : mkCoverageFilterBase σ α τ "low" = .ok s0)
    (calls : List (DriverCall σ)) :
    s0.lastFilteredStructures = none ∧
    s0.lastFilteredDegeneracies = none ∧
    s0.currentFilteredStructures = none ∧
    s0.currentFilteredDegeneracies = none ∧
    runCalls E calls s0 = (s0, [], none) := by
  have hs : s0 = freshState σ α τ "low" := mk_ok_eq h
  subst hs
  exact ⟨rfl, rfl, rfl, rfl, runCalls_low E calls _ rfl⟩

/-- Witness for C5 at a concrete call sequence on a `'low'` filter. -/
theorem c5_low_coverage_inert_witness :
    runCalls rejectAllEnv
        [DriverCall.onStart 0, DriverCall.setFiltered [1] [1],
          DriverCall.finalise, DriverCall.onStart 1, DriverCall.finalise]
        (freshState Nat Nat Unit "low") =
      (freshState Nat Nat Unit "low", [], none) :=
  (c5_low_coverage_inert rejectAllEnv (freshState Nat Nat Unit "low") rfl
    [DriverCall.onStart 0, DriverCall.setFiltered [1] [1],
      DriverCall.finalise, DriverCall.onStart 1, DriverCall.finalise]).2.2.2.2

/-- C8: constructing a `CoverageFilterBase` succeeds exactly for the coverage
values `'low'`, `'medium'`, `'full'` (storing that value), raises an error
for every other value, and no operation ever changes the stored coverage. -/
theorem c8_constructor_validation {σ α τ : Type} (coverage : String) :
    (coverage ∈ CoverageLevels →
      mkCoverageFilterBase σ α τ coverage =
        .ok (freshState σ α τ coverage) ∧
      (freshState σ α τ coverage).coverage = coverage) ∧
    (coverage ∉ CoverageLevels →
      mkCoverageFilterBase σ α τ coverage = .error PyErr.exception) ∧
    (∀ (s : CoverageFilterBase σ α τ) (index : Nat) (structures : List σ)
        (degeneracies : List Nat) (subs : List (α × α)) (tol : τ)
        (ppu mp : Bool) (mpn : Option Nat) (E : Env σ α τ),
      (OnStartSubstitution index s).coverage = s.coverage ∧
      (SetFilteredStructures structures degeneracies s).coverage =
        s.coverage ∧
      (Initialise subs tol ppu mp mpn s).coverage = s.coverage ∧
      (FinaliseMergedStructureSet E s).1.coverage = s.coverage) := by
  refine ⟨fun h => ⟨?_, rfl⟩, fun h => ?_, ?_⟩
  · unfold mkCoverageFilterBase
    rw [if_pos h]
  · unfold mkCoverageFilterBase
    rw [if_neg h]
  · intro s index structures degeneracies subs tol ppu mp mpn E
    refine ⟨?_, ?_, rfl, (finalise_field_frame E s).1⟩
    · unfold OnStartSubstitution
      split <;> rfl
    · unfold SetFilteredStructures
      split <;> rfl

/-- Witness for C8 at the concrete coverage values `'medium'` (accepted) and
`'bogus'` (rejected). -/
theorem c8_constructor_validation_witness :
    mkCoverageFilterBase Nat Nat Unit "medium" =
      .ok (freshState Nat Nat Unit "medium") ∧
    mkCoverageFilterBase Nat Nat Unit "bogus" = .error PyErr.exception :=
  ⟨((c8_constructor_validation "medium").1 (by decide)).1,
    (c8_constructor_validation "bogus").2.1 (by decide)⟩

/-- C9: `FinaliseMergedStructureSet` never changes the last buffer; aside
from the two current-buffer fields, the whole state is unchanged, the current
buffers can only grow by an appended suffix, and for any coverage other than
`'full'` the state is completely unchanged. -/
theorem c9_finalise_frame {σ α τ : Type} (E : Env σ α τ)
    (s : CoverageFilterBase σ α τ) :
    (FinaliseMergedStructureSet E s).1.lastFilteredStructures =
      s.lastFilteredStructures ∧
    (FinaliseMergedStructureSet E s).1.lastFilteredDegeneracies =
      s.lastFilteredDegeneracies ∧
    (FinaliseMergedStructureSet E s).1 =
      { s with
        currentFilteredStructures :=
          (FinaliseMergedStructureSet E s).1.currentFilteredStructures
        currentFilteredDegeneracies :=
          (FinaliseMergedStructureSet E s).1.currentFilteredDegeneracies } ∧
    (∃ tS tD,
      (FinaliseMergedStructureSet E s).1.currentFilteredStructures =
        s.currentFilteredStructures.map (fun l => l ++ tS) ∧
      (FinaliseMergedStructureSet E s).1.currentFilteredDegeneracies =
        s.currentFilteredDegeneracies.map (fun l => l ++ tD)) ∧
    (s.coverage ≠ "full" → (FinaliseMergedStructureSet E s).1 = s) := by
  rcases finalise_state_cases E s with h | ⟨hcov, cs, tS, hcs, hh⟩
  · rw [h]
    refine ⟨rfl, rfl, rfl, ⟨[], [], ?_, ?_⟩, fun _ => rfl⟩
    · cases s.currentFilteredStructures <;> simp
    · cases s.currentFilteredDegeneracies <;> simp
  · rcases hh with h | ⟨cd, tD, hcd, h⟩
    · rw [h]
      refine ⟨rfl, rfl, rfl, ⟨tS, [], ?_, ?_⟩, fun hc => absurd hcov hc⟩
      · simp [hcs]
      · cases s.currentFilteredDegeneracies <;> simp
    · rw [h]
      refine ⟨rfl, rfl, rfl, ⟨tS, tD, ?_, ?_⟩, fun hc => absurd hcov hc⟩
      · simp [hcs]
      · simp [hcd]

/-- Witness for C9 at the concrete full-coverage scenario state. -/
theorem c9_finalise_frame_witness :
    (FinaliseMergedStructureSet rejectAllEnv fullScenarioState).1.lastFilteredStructures =
      fullScenarioState.lastFilteredStructures :=
  (c9_finalise_frame rejectAllEnv fullScenarioState).1

/-- C10: `Initialise` is a real precondition of the finalize pass.  From a
freshly constructed filter, after any sequence of driver calls that does not
include `Initialise`, the progress-reporting field is still unassigned, and a
`FinaliseMergedStructureSet` call on a non-`'low'` filter with a non-empty
last buffer raises `AttributeError` (it reads `_printProgressUpdate`, which
only `Initialise` assigns). -/
theorem c10_finalise_requires_initialise {σ α τ : Type} (E : Env σ α τ)
    (coverage : String) (s0 : CoverageFilterBase σ α τ)
    (hmk : mkCoverageFilterBase σ α τ coverage = .ok s0)
    (calls : List (DriverCall σ)) :
    (runCalls E calls s0).1.printProgressUpdate = none ∧
    ((runCalls E calls s0).1.coverage ≠ "low" →
      ∀ l, (runCalls E calls s0).1.lastFilteredStructures = some l →
        l.length ≠ 0 →
        FinaliseMergedStructureSet E (runCalls E calls s0).1 =
          ((runCalls E calls s0).1, [], some PyErr.attributeError)) := by
  have hppu : (runCalls E calls s0).1.printProgressUpdate = none := by
    rw [(runCalls_preserves E calls s0).1, mk_ok_eq hmk]
    rfl
  refine ⟨hppu, fun hcov l hlast hlen => ?_⟩
  have hcomp : finaliseCompute E (runCalls E calls s0).1 =
      .raised [] .attributeError := by
    unfold finaliseCompute
    rw [if_neg hcov, hlast]
    dsimp only
    rw [if_neg hlen, hppu]
  unfold FinaliseMergedStructureSet
  rw [hcomp]

/-- Witness for C10: a `'full'` filter that was never initialised, with
`sA = 1` carried into the last buffer, raises `AttributeError` from the
finalize pass. -/
theorem c10_finalise_requires_initialise_witness :
    FinaliseMergedStructureSet rejectAllEnv
        (runCalls rejectAllEnv
          [DriverCall.onStart 0, DriverCall.setFiltered [1] [1],
            DriverCall.onStart 1]
          (freshState Nat Nat Unit "full")).1 =
      ((runCalls rejectAllEnv
          [DriverCall.onStart 0, DriverCall.setFiltered [1] [1],
            DriverCall.onStart 1]
          (freshState Nat Nat Unit "full")).1, [],
        some PyErr.attributeError) :=
  (c10_finalise_requires_initialise rejectAllEnv "full"
      (freshState Nat Nat Unit "full") rfl
      [DriverCall.onStart 0, DriverCall.setFiltered [1] [1],
        DriverCall.onStart 1]).2
    (by decide) [Item.struct 1] rfl (by decide)

/-- C4: under `'medium'` coverage, the structures handed over through
`SetFilteredStructures` at one step and shifted into the last buffer by the
next `OnStartSubstitution` are all processed by that step's finalize pass —
the `Add` trace is exactly the accepted children of every carried-over
parent, each with compounded degeneracy — and whatever the outcomes, the
finalize call leaves the current buffer empty, so nothing derived from them
is retried at the following step. -/
theorem c4_medium_single_retry {σ α τ : Type} (E : Env σ α τ)
    (s : CoverageFilterBase σ α τ) (hcov : s.coverage = "medium")
    (b : Bool) (hppu : s.printProgressUpdate = some b)
    (subs : List (α × α)) (hsubs : s.substitutions = some subs)
    (j : Nat) (p : α × α) (hj : subs.get? j = some p)
    (structs : List σ) (degens : List Nat)
    (hlen : structs.length ≤ degens.length) :
    (OnStartSubstitution j (SetFilteredStructures structs degens s)).lastFilteredStructures =
      some (structs.map Item.struct) ∧
    (OnStartSubstitution j (SetFilteredStructures structs degens s)).lastFilteredDegeneracies =
      some degens ∧
    (FinaliseMergedStructureSet E
        (OnStartSubstitution j
          (SetFilteredStructures structs degens s))).1.currentFilteredStructures =
      none ∧
    (FinaliseMergedStructureSet E
        (OnStartSubstitution j
          (SetFilteredStructures structs degens s))).1.currentFilteredDegeneracies =
      none ∧
    (FinaliseMergedStructureSet E
        (OnStartSubstitution j (SetFilteredStructures structs degens s))).2.2 =
      none ∧
    (FinaliseMergedStructureSet E
        (OnStartSubstitution j (SetFilteredStructures structs degens s))).2.1 =
      (structs.zip degens).flatMap
        (fun sd =>
          (childPairs E (E.a2n p.1) (E.a2n p.2) s.tolerance sd.1 sd.2).filter
            (fun q => E.test q.1 q.2)) := by
  have hne : s.coverage ≠ "low" := by rw [hcov]; decide
  have h1 : SetFilteredStructures structs degens s =
      { s with
        currentFilteredStructures := some (structs.map Item.struct)
        currentFilteredDegeneracies := some degens } := by
    unfold SetFilteredStructures
    rw [if_pos hne]
  have hs2 : OnStartSubstitution j (SetFilteredStructures structs degens s) =
      { s with
        lastFilteredStructures := some (structs.map Item.struct)
        lastFilteredDegeneracies := some degens
        currentFilteredStructures := none
        currentFilteredDegeneracies := none
        substitutionIndex := some j } := by
    rw [h1]
    unfold OnStartSubstitution
    rw [if_pos hne]
  rw [hs2]
  refine ⟨rfl, rfl, ?_⟩
  rcases eq_or_ne structs [] with hemp | hnemp
  · subst hemp
    have hc : finaliseCompute E
        { s with
          lastFilteredStructures := some (List.map Item.struct [])
          lastFilteredDegeneracies := some degens
          currentFilteredStructures := none
          currentFilteredDegeneracies := none
          substitutionIndex := some j } = .noop := by
      unfold finaliseCompute
      simp [hne]
    unfold FinaliseMergedStructureSet
    rw [hc]
    exact ⟨rfl, rfl, rfl, by simp⟩
  · have hcomp := finalise_run E
      { s with
        lastFilteredStructures := some (structs.map Item.struct)
        lastFilteredDegeneracies := some degens
        currentFilteredStructures := none
        currentFilteredDegeneracies := none
        substitutionIndex := some j }
      hne structs rfl degens rfl hlen b hppu subs hsubs j rfl p hj hnemp
    unfold FinaliseMergedStructureSet
    rw [hcomp]
    dsimp only
    rw [if_neg (by
      intro hcontr
      have hfull : s.coverage = "full" := hcontr.1
      rw [hcov] at hfull
      exact absurd hfull (by decide))]
    refine ⟨rfl, rfl, rfl, ?_⟩
    rw [finaliseLoop_eq E (E.a2n p.1) (E.a2n p.2) s.tolerance structs degens hlen]

/-- Witness for C4: an initialised `'medium'` filter carrying `[7]` with
degeneracy 1; child `14` (raw multiplicity 2) is accepted and added with
degeneracy 2, and the current buffer stays empty. -/
theorem c4_medium_single_retry_witness :
    (FinaliseMergedStructureSet acceptAllEnv
        (OnStartSubstitution 0
          (SetFilteredStructures [7] [1]
            (Initialise [(0, 0), (1, 1)] () false false none
              (freshState Nat Nat Unit "medium"))))).1.currentFilteredStructures =
      none ∧
    (FinaliseMergedStructureSet acceptAllEnv
        (OnStartSubstitution 0
          (SetFilteredStructures [7] [1]
            (Initialise [(0, 0), (1, 1)] () false false none
              (freshState Nat Nat Unit "medium"))))).2.1 = [(14, 2)] := by
  have h := c4_medium_single_retry acceptAllEnv
    (Initialise [(0, 0), (1, 1)] () false false none
      (freshState Nat Nat Unit "medium"))
    rfl false rfl [(0, 0), (1, 1)] rfl 0 (0, 0) rfl [7] [1] (by decide)
  exact ⟨h.2.2.1, h.2.2.2.2.2.trans rfl⟩

/-- C7: in the finalize loop, for the parent at position `k` of the last
buffer (with degeneracy `d`) and the child at position `r` of the generator's
output (with raw multiplicity `m`), the degeneracy attached to that child is
`m * d`: accepted children are passed to `Add` as `(child, m * d)`, rejected
children put `m * d` into the reject degeneracy list; moreover the `Add`
trace and the reject degeneracy list are exactly the per-parent accepted and
rejected compounded pairs. -/
theorem c7_degeneracy_compounding {σ α τ : Type} (E : Env σ α τ)
    (a1 a2 : Nat) (tol : Option τ) (structs : List σ) (degens : List Nat)
    (hlen : structs.length ≤ degens.length)
    (k : Nat) (hk : k < structs.length) (hk2 : k < degens.length)
    (r : Nat)
    (hr1 : r < (E.gen (structs.get ⟨k, hk⟩) a1 a2 tol).1.length)
    (hr2 : r < (E.gen (structs.get ⟨k, hk⟩) a1 a2 tol).2.length) :
    ((finaliseLoop E a1 a2 tol (structs.map Item.struct) degens).adds =
      (structs.zip degens).flatMap
        (fun sd => (childPairs E a1 a2 tol sd.1 sd.2).filter
          (fun q => E.test q.1 q.2))) ∧
    ((finaliseLoop E a1 a2 tol
        (structs.map Item.struct) degens).filteredDegeneracies =
      (structs.zip degens).flatMap
        (fun sd => ((childPairs E a1 a2 tol sd.1 sd.2).filter
            (fun q => ! E.test q.1 q.2)).map Prod.snd)) ∧
    (E.test ((E.gen (structs.get ⟨k, hk⟩) a1 a2 tol).1.get ⟨r, hr1⟩)
        ((E.gen (structs.get ⟨k, hk⟩) a1 a2 tol).2.get ⟨r, hr2⟩ *
          degens.get ⟨k, hk2⟩) = true →
      ((E.gen (structs.get ⟨k, hk⟩) a1 a2 tol).1.get ⟨r, hr1⟩,
          (E.gen (structs.get ⟨k, hk⟩) a1 a2 tol).2.get ⟨r, hr2⟩ *
            degens.get ⟨k, hk2⟩) ∈
        (finaliseLoop E a1 a2 tol (structs.map Item.struct) degens).adds) ∧
    (E.test ((E.gen (structs.get ⟨k, hk⟩) a1 a2 tol).1.get ⟨r, hr1⟩)
        ((E.gen (structs.get ⟨k, hk⟩) a1 a2 tol).2.get ⟨r, hr2⟩ *
          degens.get ⟨k, hk2⟩) = false →
      ((E.gen (structs.get ⟨k, hk⟩) a1 a2 tol).2.get ⟨r, hr2⟩ *
          degens.get ⟨k, hk2⟩) ∈
        (finaliseLoop E a1 a2 tol
          (structs.map Item.struct) degens).filteredDegeneracies) := by
  have hLoop := finaliseLoop_eq E a1 a2 tol structs degens hlen
  have hadds : (finaliseLoop E a1 a2 tol (structs.map Item.struct) degens).adds =
      (structs.zip degens).flatMap
        (fun sd => (childPairs E a1 a2 tol sd.1 sd.2).filter
          (fun q => E.test q.1 q.2)) := by rw [hLoop]
  have hfd : (finaliseLoop E a1 a2 tol
      (structs.map Item.struct) degens).filteredDegeneracies =
      (structs.zip degens).flatMap
        (fun sd => ((childPairs E a1 a2 tol sd.1 sd.2).filter
            (fun q => ! E.test q.1 q.2)).map Prod.snd) := by rw [hLoop]
  have hkz : k < (structs.zip degens).length := by
    rw [List.length_zip]
    exact lt_min hk hk2
  have hzipget : (structs.zip degens).get ⟨k, hkz⟩ =
      (structs.get ⟨k, hk⟩, degens.get ⟨k, hk2⟩) := by
    simp [List.get_eq_getElem, List.getElem_zip]
  have hzipmem : (structs.get ⟨k, hk⟩, degens.get ⟨k, hk2⟩) ∈
      structs.zip degens := by
    rw [← hzipget]
    exact List.get_mem _ _ _
  have hrz : r < (childPairs E a1 a2 tol (structs.get ⟨k, hk⟩)
      (degens.get ⟨k, hk2⟩)).length := by
    rw [childPairs, List.length_zip, List.length_map]
    exact lt_min hr1 hr2
  have hpair : (childPairs E a1 a2 tol (structs.get ⟨k, hk⟩)
      (degens.get ⟨k, hk2⟩)).get ⟨r, hrz⟩ =
      ((E.gen (structs.get ⟨k, hk⟩) a1 a2 tol).1.get ⟨r, hr1⟩,
        (E.gen (structs.get ⟨k, hk⟩) a1 a2 tol).2.get ⟨r, hr2⟩ *
          degens.get ⟨k, hk2⟩) := by
    simp [childPairs, List.get_eq_getElem, List.getElem_zip, List.getElem_map]
  have hmem : ((E.gen (structs.get ⟨k, hk⟩) a1 a2 tol).1.get ⟨r, hr1⟩,
      (E.gen (structs.get ⟨k, hk⟩) a1 a2 tol).2.get ⟨r, hr2⟩ *
        degens.get ⟨k, hk2⟩) ∈
      childPairs E a1 a2 tol (structs.get ⟨k, hk⟩) (degens.get ⟨k, hk2⟩) := by
    rw [← hpair]
    exact List.get_mem _ _ _
  refine ⟨hadds, hfd, fun htest => ?_, fun htest => ?_⟩
  · rw [hadds]
    exact List.mem_flatMap.2
      ⟨(structs.get ⟨k, hk⟩, degens.get ⟨k, hk2⟩), hzipmem,
        List.mem_filter.2 ⟨hmem, htest⟩⟩
  · rw [hfd]
    refine List.mem_flatMap.2
      ⟨(structs.get ⟨k, hk⟩, degens.get ⟨k, hk2⟩), hzipmem, ?_⟩
    exact List.mem_map.2
      ⟨((E.gen (structs.get ⟨k, hk⟩) a1 a2 tol).1.get ⟨r, hr1⟩,
          (E.gen (structs.get ⟨k, hk⟩) a1 a2 tol).2.get ⟨r, hr2⟩ *
            degens.get ⟨k, hk2⟩),
        List.mem_filter.2 ⟨hmem, by rw [htest]; rfl⟩, rfl⟩

/-- Witness for C7: parent `3` with degeneracy `5` generates child `6` with
raw multiplicity `2`; the rejected child's compounded degeneracy `10` lands
in the reject degeneracy list. -/
theorem c7_degeneracy_compounding_witness :
    (10 : Nat) ∈
      (finaliseLoop rejectAllEnv 0 0 none
        [Item.struct 3] [5]).filteredDegeneracies :=
  (c7_degeneracy_compounding rejectAllEnv 0 0 none [3] [5] (by decide)
      0 (by decide) (by decide) 0 (by decide) (by decide)).2.2.2 rfl

end Transformer
